import Mathlib

/-!
Verification of the roket2d rocket-telemetry visualizer core.

Shallow embedding of `src/rocket_visualizer/particles.py`,
`src/rocket_visualizer/log_data.py` and `src/rocket_visualizer/rocket.py`.
Python float arithmetic is modelled exactly over `ℚ` where the code is purely
arithmetic, and over `ℝ` where the code calls `math.sqrt` / `math.sin` /
`math.cos`.  Python's `int(x)` builtin (truncation toward zero) is modelled by
`pyTrunc`.  Calls to `random.uniform` / `random.randint` are modelled by
explicit sampling oracles passed as arguments, since only their bounds matter
to any property.
-/

/-- Python's `int(x)` builtin on a real number: truncation toward zero. -/
def pyTrunc {α : Type} [LinearOrderedField α] [FloorRing α] (q : α) : ℤ :=
  if 0 ≤ q then ⌊q⌋ else ⌈q⌉

/-- Particle from `particles.py` (class `Particle`): position, velocity,
remaining life, initial life (`max_life`), RGBA color and radius (`size`).
The numeric type is a parameter so the same code can be read over `ℚ`
(exact, decidable) and over `ℝ` (where emitters use trigonometry). -/
structure Particle (α : Type) where
  x : α
  y : α
  vx : α
  vy : α
  life : α
  max_life : α
  color : ℤ × ℤ × ℤ × ℤ
  size : α
deriving DecidableEq

namespace Particle

variable {α : Type} [LinearOrderedField α] [FloorRing α]

/-- Embedding of `Particle.update(dt)`: integrate position, decrement life, recompute the
alpha channel as `max(0, int(255 * (life / max_life)))` from the decremented
life. -/
def update (dt : α) (p : Particle α) : Particle α :=
  let life := p.life - dt
  let alpha := pyTrunc (255 * (life / p.max_life))
  { p with
    x := p.x + p.vx * dt
    y := p.y + p.vy * dt
    life := life
    color := (p.color.1, p.color.2.1, p.color.2.2.1, max 0 alpha) }

/-- Embedding of `Particle.is_alive()`: the particle is alive while `life > 0`. -/
def is_alive (p : Particle α) : Bool := decide (0 < p.life)

end Particle

/-- Embedding of `ParticleSystem` from `particles.py`: window size, the startup-time
`enabled` flag and the two particle populations. -/
structure ParticleSystem (α : Type) where
  window_width : ℤ
  window_height : ℤ
  enabled : Bool
  exhaust_particles : List (Particle α)
  dust_particles : List (Particle α)
deriving DecidableEq

namespace ParticleSystem

variable {α : Type} [LinearOrderedField α] [FloorRing α]

/-- Embedding of `ParticleSystem.update(dt)`: first keep only the particles that are still
alive, then integrate every survivor by `dt` (cull-then-integrate, as the
source does). -/
def update (dt : α) (s : ParticleSystem α) : ParticleSystem α :=
  { s with
    exhaust_particles :=
      (s.exhaust_particles.filter Particle.is_alive).map (Particle.update dt)
    dust_particles :=
      (s.dust_particles.filter Particle.is_alive).map (Particle.update dt) }

/-- Repeated `ParticleSystem.update` over a list of frame time steps. -/
def advanceAll (ds : List α) (s : ParticleSystem α) : ParticleSystem α :=
  ds.foldl (fun t d => t.update d) s

end ParticleSystem

/-- A concrete particle with life 1 used to exercise the integration step. -/
def testParticle : Particle ℚ :=
  { x := 0, y := 0, vx := 0, vy := 0, life := 1, max_life := 1
    color := (255, 150, 0, 255), size := 2 }

/-- A concrete engine holding exactly `testParticle` in its exhaust
population. -/
def testSystem : ParticleSystem ℚ :=
  { window_width := 800, window_height := 600, enabled := true
    exhaust_particles := [testParticle], dust_particles := [] }

/-- Embedding of `LogData` from `log_data.py`: one parsed telemetry sample.  Floats are
modelled over `ℚ` (every telemetry token is a finite decimal). -/
structure LogData where
  timestamp : String
  altitude : ℚ
  pressure : ℚ
  temperature : ℚ
  gps_altitude : ℚ
  latitude : ℚ
  longitude : ℚ
  gyro_x : ℚ
  gyro_y : ℚ
  gyro_z : ℚ
  acceleration_x : ℚ
  acceleration_y : ℚ
  acceleration_z : ℚ
  pitch : ℚ
  yaw : ℚ
  roll : ℚ
  battery : ℚ
  state : ℤ
deriving DecidableEq

/-- Embedding of `LogData.__init__`: the default zero-valued sample held before any
successful parse. -/
def initLogData : LogData :=
  { timestamp := "", altitude := 0, pressure := 0, temperature := 0
    gps_altitude := 0, latitude := 0, longitude := 0
    gyro_x := 0, gyro_y := 0, gyro_z := 0
    acceleration_x := 0, acceleration_y := 0, acceleration_z := 0
    pitch := 0, yaw := 0, roll := 0, battery := 0, state := 0 }

/-- Character-level whitespace split keeping empty chunks: each whitespace
character ends the current chunk. -/
def splitWS : List Char → List (List Char)
  | [] => [[]]
  | c :: cs =>
    let r := splitWS cs
    if c.isWhitespace then [] :: r
    else (c :: r.headI) :: r.tail

/-- Python's `str.split()` with no separator: split on runs of whitespace and
drop empty tokens (which also subsumes the preceding `strip()`). -/
def pySplit (s : String) : List String :=
  ((splitWS s.toList).map (fun t => String.mk t)).filter (fun t => t ≠ "")

/-- Numeric value of a digit string, most significant digit first. -/
def natOfDigits (l : List Char) : ℕ :=
  l.foldl (fun n c => 10 * n + (c.toNat - 48)) 0

/-- Unsigned decimal literal: digits with an optional fractional part, as
accepted by Python's `float` builtin for the telemetry tokens. -/
def parseDecimal (l : List Char) : Option ℚ :=
  let intPart := l.takeWhile Char.isDigit
  match l.dropWhile Char.isDigit with
  | [] => if intPart.isEmpty then none else some (natOfDigits intPart)
  | '.' :: frac =>
      if frac.all Char.isDigit && !(intPart.isEmpty && frac.isEmpty) then
        some ((natOfDigits intPart : ℚ) + (natOfDigits frac : ℚ) / 10 ^ frac.length)
      else none
  | _ => none

/-- Model of Python's `float(token)` conversion: optional sign then a decimal
literal; `none` models the `ValueError` path. -/
def pyFloat (s : String) : Option ℚ :=
  match s.toList with
  | '-' :: rest => (parseDecimal rest).map (fun q => -q)
  | '+' :: rest => parseDecimal rest
  | l => parseDecimal l

/-- All-digit integer literal. -/
def pyIntCore (l : List Char) : Option ℤ :=
  if !l.isEmpty && l.all Char.isDigit then some (natOfDigits l) else none

/-- Model of Python's `int(token)` conversion: optional sign then digits;
`none` models the `ValueError` path. -/
def pyInt (s : String) : Option ℤ :=
  match s.toList with
  | '-' :: rest => (pyIntCore rest).map Neg.neg
  | '+' :: rest => pyIntCore rest
  | l => pyIntCore l

/-- The field-conversion half of `LogReader.parse_log_line`: read the 18
documented columns in fixed order (timestamp string, 16 floats, integer
state); any failed conversion aborts the whole parse. -/
def parseFields (parts : List String) : Option LogData :=
  match parts[0]?, (parts[1]?).bind pyFloat, (parts[2]?).bind pyFloat,
    (parts[3]?).bind pyFloat, (parts[4]?).bind pyFloat, (parts[5]?).bind pyFloat,
    (parts[6]?).bind pyFloat, (parts[7]?).bind pyFloat, (parts[8]?).bind pyFloat,
    (parts[9]?).bind pyFloat, (parts[10]?).bind pyFloat, (parts[11]?).bind pyFloat,
    (parts[12]?).bind pyFloat, (parts[13]?).bind pyFloat, (parts[14]?).bind pyFloat,
    (parts[15]?).bind pyFloat, (parts[16]?).bind pyFloat, (parts[17]?).bind pyInt with
  | some ts, some alt, some pres, some temp, some gpsAlt, some lat, some lon,
    some gx, some gy, some gz, some ax, some ay, some az, some pit, some yaw,
    some roll, some bat, some st =>
      some { timestamp := ts, altitude := alt, pressure := pres,
             temperature := temp, gps_altitude := gpsAlt, latitude := lat,
             longitude := lon, gyro_x := gx, gyro_y := gy, gyro_z := gz,
             acceleration_x := ax, acceleration_y := ay, acceleration_z := az,
             pitch := pit, yaw := yaw, roll := roll, battery := bat, state := st }
  | _, _, _, _, _, _, _, _, _, _, _, _, _, _, _, _, _, _ => none

/-- Embedding of `LogReader.parse_log_line`: split on whitespace, fail on fewer than 18
tokens, otherwise convert the first 18 fields; every failure returns the
`none` sentinel instead of raising. -/
def parse_log_line (line : String) : Option LogData :=
  let parts := pySplit line
  if parts.length < 18 then none else parseFields parts

/-- The file-backed branch of `LogReader.read_latest_data`.  The collaborator
file read is abstracted to its result: `none` when the file is absent, empty
or unreadable, `some line` for the newest raw line.  A failed parse or a
failed read leaves the held sample unchanged. -/
def read_latest_data (ioLine : Option String) (current : LogData) : LogData :=
  match ioLine with
  | none => current
  | some line =>
      match parse_log_line line with
      | some d => d
      | none => current

/-- A sequence of file-backed polls starting from a held sample. -/
def pollAll (ioLines : List (Option String)) (current : LogData) : LogData :=
  ioLines.foldl (fun cur io => read_latest_data io cur) current

/-- Mutable state of `TestLogGenerator`: the accumulated altitude and the last
computed pitch. -/
structure TestLogGenerator where
  altitude : ℝ
  pitch : ℝ

/-- Embedding of `TestLogGenerator.__init__`: altitude and pitch start at zero. -/
def initGenerator : TestLogGenerator := { altitude := 0, pitch := 0 }

/-- The state transition of `TestLogGenerator.generate_line` for one poll:
`altitude += 10.0` and `pitch = sin(elapsed * 0.5) * 15.0`, where `elapsed`
is the wall-clock time since the generator was created. -/
noncomputable def generateStep (elapsed : ℝ) (g : TestLogGenerator) : TestLogGenerator :=
  { altitude := g.altitude + 10, pitch := Real.sin (elapsed * 0.5) * 15 }

/-- The sequence of generator states produced by polling once per element of
`elapsedTimes` (the wall-clock instants of the polls). -/
noncomputable def runGenerator (g : TestLogGenerator) :
    List ℝ → List TestLogGenerator
  | [] => []
  | e :: es =>
      let g' := generateStep e g
      g' :: runGenerator g' es

/-- Embedding of `BackgroundRenderer.update_color`: clamp the altitude into `[0, 5000]`,
take `ratio = altitude / 5000` and truncate the linear interpolation of each
channel between sky blue `(135, 206, 235)` and midnight blue `(25, 25, 112)`. -/
def update_color (altitude : ℚ) : ℤ × ℤ × ℤ :=
  let altitude := max 0 (min 5000 altitude)
  let ratio := altitude / 5000
  (pyTrunc (135 * (1 - ratio) + 25 * ratio),
   pyTrunc (206 * (1 - ratio) + 25 * ratio),
   pyTrunc (235 * (1 - ratio) + 112 * ratio))

/-- Embedding of `math.radians`: degrees to radians. -/
noncomputable def radians (deg : ℝ) : ℝ := deg * (Real.pi / 180)

/-- X component of the nose direction used by the emitters:
`sin(math.radians(pitch))`. -/
noncomputable def noseDx (pitch : ℝ) : ℝ := Real.sin (radians pitch)

/-- Y component of the nose direction used by the emitters:
`cos(math.radians(pitch))`. -/
noncomputable def noseDy (pitch : ℝ) : ℝ := Real.cos (radians pitch)

/-- The denominator chosen by the edge-test branch of
`ParticleSystem.create_dust_particles`: the X component when
`abs(nose_dx) > abs(nose_dy)`, the Y component otherwise. -/
noncomputable def dustEdgeDenominator (dx dy : ℝ) : ℝ :=
  if |dx| > |dy| then dx else dy

/-- The edge-intersection parameter `t` of
`ParticleSystem.create_dust_particles`: how far along the nose direction a ray
from the window center travels before leaving the window rectangle.  Window
centers use Python's floor division `//`. -/
noncomputable def dustT (width height : ℤ) (dx dy : ℝ) : ℝ :=
  let center_x : ℝ := (Int.fdiv width 2 : ℤ)
  let center_y : ℝ := (Int.fdiv height 2 : ℤ)
  if |dx| > |dy| then
    if dx > 0 then ((width : ℝ) - center_x) / dx else -center_x / dx
  else
    if dy > 0 then ((height : ℝ) - center_y) / dy else -center_y / dy

/-- Embedding of `ParticleSystem.create_exhaust_particles`: no-op when disabled; otherwise
append `int(2 * |acceleration|)` particles behind the rocket.  `randF i` and
`randI i` are the successive draws of `random.uniform` / `random.randint`;
draw `4*i+2` doubles as the sampled life and initial life of particle `i`. -/
noncomputable def create_exhaust_particles (rocket_x rocket_y : ℝ)
    (acceleration_x acceleration_y acceleration_z pitch : ℝ)
    (randF : ℕ → ℝ) (randI : ℕ → ℤ) (s : ParticleSystem ℝ) : ParticleSystem ℝ :=
  if s.enabled = false then s
  else
    let accel_magnitude :=
      Real.sqrt (acceleration_x ^ 2 + acceleration_y ^ 2 + acceleration_z ^ 2)
    let num_particles := (pyTrunc (accel_magnitude * 2)).toNat
    let angle_rad := radians pitch
    let mk : ℕ → Particle ℝ := fun i =>
      { x := rocket_x - Real.sin angle_rad * 40
        y := rocket_y - Real.cos angle_rad * 40
        vx := randF (4 * i) - Real.sin angle_rad * 100
        vy := randF (4 * i + 1) - Real.cos angle_rad * 100
        life := randF (4 * i + 2)
        max_life := randF (4 * i + 2)
        color := (255, randI i, 0, 255)
        size := randF (4 * i + 3) }
    { s with exhaust_particles :=
        s.exhaust_particles ++ (List.range num_particles).map mk }

/-- Embedding of `ParticleSystem.create_dust_particles`: no-op when disabled; otherwise
append `int(3 * max(0.1, 0.5 * |acceleration|))` particles spawned where the
nose-direction ray exits the window, jittered along the perpendicular and
clamped into the window, moving opposite the nose direction. -/
noncomputable def create_dust_particles
    (acceleration_x acceleration_y acceleration_z pitch : ℝ)
    (randF : ℕ → ℝ) (randI : ℕ → ℤ) (s : ParticleSystem ℝ) : ParticleSystem ℝ :=
  if s.enabled = false then s
  else
    let speed_magnitude :=
      Real.sqrt (acceleration_x ^ 2 + acceleration_y ^ 2 + acceleration_z ^ 2)
    let speed_multiplier := max 0.1 (speed_magnitude * 0.5)
    let num_particles := (pyTrunc (3 * speed_multiplier)).toNat
    let angle_rad := radians pitch
    let nose_dx := Real.sin angle_rad
    let nose_dy := Real.cos angle_rad
    let center_x : ℝ := (Int.fdiv s.window_width 2 : ℤ)
    let center_y : ℝ := (Int.fdiv s.window_height 2 : ℤ)
    let mk : ℕ → Particle ℝ := fun i =>
      let t := dustT s.window_width s.window_height nose_dx nose_dy
      let edge_x := center_x + nose_dx * t
      let edge_y := center_y + nose_dy * t
      let random_offset := randF (5 * i)
      let start_x := max 0 (min (s.window_width : ℝ) (edge_x + -nose_dy * random_offset))
      let start_y := max 0 (min (s.window_height : ℝ) (edge_y + nose_dx * random_offset))
      let particle_speed := speed_magnitude * 50
      { x := start_x
        y := start_y
        vx := -nose_dx * particle_speed + randF (5 * i + 1)
        vy := -nose_dy * particle_speed + randF (5 * i + 2)
        life := randF (5 * i + 3)
        max_life := randF (5 * i + 3)
        color := (randI (2 * i), randI (2 * i), randI (2 * i), randI (2 * i + 1))
        size := randF (5 * i + 4) }
    { s with dust_particles :=
        s.dust_particles ++ (List.range num_particles).map mk }

/-- An enabled engine over `ℝ` with both populations empty. -/
def emptySystemR : ParticleSystem ℝ :=
  { window_width := 800, window_height := 600, enabled := true
    exhaust_particles := [], dust_particles := [] }

/-- A disabled engine over `ℝ`, as built by the app when the particles flag is
off. -/
def disabledSystemR : ParticleSystem ℝ :=
  { window_width := 800, window_height := 600, enabled := false
    exhaust_particles := [], dust_particles := [] }

/-- A concrete particle whose post-decrement life ratio is `9/10`, exhibiting
the truncation of `255 * 0.9 = 229.5`. -/
def truncationParticle : Particle ℚ :=
  { x := 0, y := 0, vx := 0, vy := 0, life := 19/10, max_life := 1
    color := (255, 150, 0, 255), size := 2 }

/-- Claim C5: the background color clamps altitude into `[0, 5000]` and then
interpolates each RGB channel between sky blue at ratio 0 and midnight blue at
ratio 1; in particular the endpoint colors are exact and out-of-range
altitudes give the clamped endpoint colors. -/
theorem background_color_clamped_interpolation :
    (∀ a : ℚ, update_color a = update_color (max 0 (min 5000 a))) ∧
    update_color 0 = (135, 206, 235) ∧
    update_color 5000 = (25, 25, 112) ∧
    (∀ a : ℚ, a ≤ 0 → update_color a = update_color 0) ∧
    (∀ a : ℚ, 5000 ≤ a → update_color a = update_color 5000) := by
  have hclamp : ∀ a : ℚ, max 0 (min 5000 (max 0 (min 5000 a))) = max 0 (min 5000 a) := by
    intro a
    have h0 : (0 : ℚ) ≤ max 0 (min 5000 a) := le_max_left _ _
    have h5 : max 0 (min 5000 a) ≤ 5000 :=
      max_le (by norm_num) (min_le_left _ _)
    rw [min_eq_right h5, max_eq_right h0]
  have hgen : ∀ a : ℚ, update_color a = update_color (max 0 (min 5000 a)) := by
    intro a
    unfold update_color
    rw [hclamp a]
  refine ⟨hgen, by norm_num [update_color, pyTrunc], by norm_num [update_color, pyTrunc], ?_, ?_⟩
  · intro a ha
    rw [hgen a, hgen 0]
    have : min 5000 a = a := min_eq_right (by linarith)
    rw [this, max_eq_left ha]
    norm_num
  · intro a ha
    rw [hgen a, hgen 5000]
    have : min 5000 a = 5000 := min_eq_left ha
    rw [this]
    norm_num

/-- Witness for C5 at the spec's concrete out-of-range altitudes. -/
theorem background_color_clamped_interpolation_witness :
    update_color (-100) = (135, 206, 235) ∧ update_color 6000 = (25, 25, 112) := by
  have h := background_color_clamped_interpolation
  exact ⟨(h.2.2.2.1 (-100) (by norm_num)).trans h.2.1,
         (h.2.2.2.2 6000 (by norm_num)).trans h.2.2.1⟩

/-- Claim C9: with the engine constructed disabled, both emitters return the
state unchanged. -/
theorem emitters_noop_when_disabled (rx ry ax ay az pitch : ℝ)
    (randF : ℕ → ℝ) (randI : ℕ → ℤ) (s : ParticleSystem ℝ)
    (h : s.enabled = false) :
    create_exhaust_particles rx ry ax ay az pitch randF randI s = s ∧
    create_dust_particles ax ay az pitch randF randI s = s := by
  constructor
  · unfold create_exhaust_particles
    rw [if_pos h]
  · unfold create_dust_particles
    rw [if_pos h]

/-- Witness for C9 on a concrete disabled engine. -/
theorem emitters_noop_when_disabled_witness :
    create_exhaust_particles 0 0 1 2 3 4 (fun _ => 0) (fun _ => 0) disabledSystemR =
      disabledSystemR ∧
    create_dust_particles 1 2 3 4 (fun _ => 0) (fun _ => 0) disabledSystemR =
      disabledSystemR :=
  emitters_noop_when_disabled 0 0 1 2 3 4 (fun _ => 0) (fun _ => 0) disabledSystemR rfl

/-- Counterexample to C2 as stated: after `update(1)` the truncation particle
has ratio `9/10`, the code's alpha is `int(229.5) = 229`, while rounding as
the claim states would give `230`. -/
theorem particle_alpha_truncates_not_rounds :
    (truncationParticle.update 1).color.2.2.2 ≠
      round ((255 : ℚ) * max 0 ((truncationParticle.life - 1) / truncationParticle.max_life)) ∧
    (truncationParticle.update 1).color.2.2.2 = 229 ∧
    round ((255 : ℚ) * max 0 ((truncationParticle.life - 1) / truncationParticle.max_life)) = 230 := by
  have h1 : (truncationParticle.update 1).color.2.2.2 = 229 := by
    norm_num [Particle.update, pyTrunc, truncationParticle]
  have h2 : round ((255 : ℚ) * max 0 ((truncationParticle.life - 1) / truncationParticle.max_life)) = 230 := by
    rw [round_eq]
    norm_num [truncationParticle]
  refine ⟨?_, h1, h2⟩
  rw [h1, h2]
  norm_num

/-- Claim C2 amended: each tick moves the particle by `velocity * dt`,
decrements life by `dt`, and recomputes alpha as
`max(0, trunc(255 * life/initial_life))` from the decremented life, where
`trunc` truncates toward zero (Python `int`), not `round`; the resulting
alpha never exceeds 255 while the life ratio is at most 1, and is never
negative. -/
theorem particle_update_integrates_and_fades (p : Particle ℚ) (dt : ℚ) :
    (p.update dt).x = p.x + p.vx * dt ∧
    (p.update dt).y = p.y + p.vy * dt ∧
    (p.update dt).life = p.life - dt ∧
    (p.update dt).color =
      (p.color.1, p.color.2.1, p.color.2.2.1,
        max 0 (pyTrunc (255 * ((p.life - dt) / p.max_life)))) ∧
    (0 < p.max_life → p.life - dt ≤ p.max_life → (p.update dt).color.2.2.2 ≤ 255) ∧
    0 ≤ (p.update dt).color.2.2.2 := by
  refine ⟨rfl, rfl, rfl, rfl, ?_, ?_⟩
  · intro hpos hle
    show max 0 (pyTrunc (255 * ((p.life - dt) / p.max_life))) ≤ 255
    have hr : (p.life - dt) / p.max_life ≤ 1 := (div_le_one hpos).mpr hle
    have h255 : (255 : ℚ) * ((p.life - dt) / p.max_life) ≤ 255 := by nlinarith
    have : pyTrunc (255 * ((p.life - dt) / p.max_life)) ≤ 255 := by
      unfold pyTrunc
      split
      · calc ⌊(255 : ℚ) * ((p.life - dt) / p.max_life)⌋ ≤ ⌊(255 : ℚ)⌋ :=
              Int.floor_le_floor h255
          _ = 255 := by norm_num
      · calc ⌈(255 : ℚ) * ((p.life - dt) / p.max_life)⌉ ≤ ⌈(255 : ℚ)⌉ :=
              Int.ceil_le_ceil h255
          _ = 255 := by norm_num
    exact max_le (by norm_num) this
  · exact le_max_left _ _

/-- Witness for C2 at a concrete particle and step. -/
theorem particle_update_integrates_and_fades_witness :
    (testParticle.update (1/2)).life = testParticle.life - 1/2 ∧
    (testParticle.update (1/2)).color.2.2.2 ≤ 255 := by
  have h := particle_update_integrates_and_fades testParticle (1/2)
  exact ⟨h.2.2.1, h.2.2.2.2.1 (by norm_num [testParticle]) (by norm_num [testParticle])⟩

/-- Any particle surviving one `update` is the integration of a previously
live particle of the exhaust population. -/
theorem mem_update_exhaust {s : ParticleSystem ℚ} {dt : ℚ} {p : Particle ℚ}
    (hp : p ∈ (s.update dt).exhaust_particles) :
    ∃ q ∈ s.exhaust_particles, 0 < q.life ∧ p = q.update dt := by
  simp only [ParticleSystem.update, List.mem_map, List.mem_filter,
    Particle.is_alive, decide_eq_true_eq] at hp
  obtain ⟨q, ⟨hqmem, hqlive⟩, rfl⟩ := hp
  exact ⟨q, hqmem, hqlive, rfl⟩

/-- Any particle surviving one `update` is the integration of a previously
live particle of the dust population. -/
theorem mem_update_dust {s : ParticleSystem ℚ} {dt : ℚ} {p : Particle ℚ}
    (hp : p ∈ (s.update dt).dust_particles) :
    ∃ q ∈ s.dust_particles, 0 < q.life ∧ p = q.update dt := by
  simp only [ParticleSystem.update, List.mem_map, List.mem_filter,
    Particle.is_alive, decide_eq_true_eq] at hp
  obtain ⟨q, ⟨hqmem, hqlive⟩, rfl⟩ := hp
  exact ⟨q, hqmem, hqlive, rfl⟩

/-- An empty exhaust population stays empty under any number of advances. -/
theorem advanceAll_exhaust_empty (ds : List ℚ) (s : ParticleSystem ℚ)
    (h : s.exhaust_particles = []) :
    (ParticleSystem.advanceAll ds s).exhaust_particles = [] := by
  induction ds generalizing s with
  | nil => exact h
  | cons d ds ih =>
      have hstep : (s.update d).exhaust_particles = [] := by
        simp [ParticleSystem.update, h]
      exact ih (s.update d) hstep

/-- Counterexample to C1 as stated: advancing the one-particle engine (life 1)
by `dt = 2` leaves the particle in the exhaust population with remaining life
`-1 < 0`, because the code culls before integrating, not after; so the
population right after an advance is not restricted to `0 ≤ remaining_life`,
and the particle is present at simulated time `2 ≥ L = 1`. -/
theorem advance_keeps_expired_particle :
    ((testSystem.update 2).exhaust_particles.map Particle.life) = [-1] ∧
    ¬(∀ p ∈ (testSystem.update 2).exhaust_particles, 0 ≤ p.life) := by
  have hmap : ((testSystem.update 2).exhaust_particles.map Particle.life) = [-1] := by
    have hfil : testSystem.exhaust_particles.filter Particle.is_alive = [testParticle] := by
      simp [testSystem, List.filter, Particle.is_alive, testParticle]
    simp only [ParticleSystem.update, testSystem] at hfil ⊢
    rw [hfil]
    simp only [List.map_cons, List.map_nil, Particle.update, testParticle]
    norm_num
  refine ⟨hmap, ?_⟩
  intro hall
  have hmem : ∀ q ∈ (testSystem.update 2).exhaust_particles.map Particle.life, 0 ≤ q := by
    intro q hq
    obtain ⟨p, hp, rfl⟩ := List.mem_map.mp hq
    exact hall p hp
  rw [hmap] at hmem
  have := hmem (-1) (List.mem_singleton.mpr rfl)
  norm_num at this

/-- Claim C1 amended: `advance(dt)` culls first and integrates after
(cull-then-integrate).  Every particle present immediately after an advance is
the `dt`-integration of a particle that was live (`life > 0`) before the call,
so its remaining life lies in `(-dt, initial life]` and may be negative for
one frame; a particle already expired (`life ≤ 0`) going into an advance is
removed, so a particle created with life `L` is absent from the snapshot after
any advance whose preceding advances total at least `L` of simulated time. -/
theorem advance_culls_then_integrates (s : ParticleSystem ℚ) (dt : ℚ)
    (hdt : 0 < dt) :
    (∀ p ∈ (s.update dt).exhaust_particles,
        ∃ q ∈ s.exhaust_particles, 0 < q.life ∧ p = q.update dt ∧
          -dt < p.life ∧ p.life < q.life) ∧
    (∀ p ∈ (s.update dt).dust_particles,
        ∃ q ∈ s.dust_particles, 0 < q.life ∧ p = q.update dt ∧
          -dt < p.life ∧ p.life < q.life) ∧
    (∀ (p : Particle ℚ) (ds : List ℚ) (s' : ParticleSystem ℚ),
        ds ≠ [] → (∀ d ∈ ds, 0 < d) → p.life ≤ ds.dropLast.sum →
        s'.exhaust_particles = [p] →
        (ParticleSystem.advanceAll ds s').exhaust_particles = []) := by
  refine ⟨?_, ?_, ?_⟩
  · intro p hp
    obtain ⟨q, hqmem, hqlive, rfl⟩ := mem_update_exhaust hp
    have hlife : (q.update dt).life = q.life - dt := rfl
    exact ⟨q, hqmem, hqlive, rfl, by rw [hlife]; linarith, by rw [hlife]; linarith⟩
  · intro p hp
    obtain ⟨q, hqmem, hqlive, rfl⟩ := mem_update_dust hp
    have hlife : (q.update dt).life = q.life - dt := rfl
    exact ⟨q, hqmem, hqlive, rfl, by rw [hlife]; linarith, by rw [hlife]; linarith⟩
  · intro p ds
    induction ds generalizing p with
    | nil => intro s' hne; exact absurd rfl hne
    | cons d ds ih =>
        intro s' _ hpos hsum hexh
        rw [show ParticleSystem.advanceAll (d :: ds) s'
              = ParticleSystem.advanceAll ds (s'.update d) from rfl]
        cases ds with
        | nil =>
            have hdead : p.life ≤ 0 := by simpa using hsum
            have hstep : (s'.update d).exhaust_particles = [] := by
              simp [ParticleSystem.update, hexh, List.filter, Particle.is_alive,
                not_lt.mpr hdead]
            exact hstep
        | cons d2 rest =>
            by_cases hlive : 0 < p.life
            · have hstep : (s'.update d).exhaust_particles = [p.update d] := by
                simp [ParticleSystem.update, hexh, List.filter, Particle.is_alive, hlive]
              refine ih (p.update d) (s'.update d) (by simp) ?_ ?_ hstep
              · intro x hx; exact hpos x (List.mem_cons_of_mem _ hx)
              · have hl : (p.update d).life = p.life - d := rfl
                have hd : (d :: d2 :: rest).dropLast.sum
                    = d + ((d2 :: rest).dropLast).sum := by
                  rw [show (d :: d2 :: rest).dropLast = d :: (d2 :: rest).dropLast from rfl,
                    List.sum_cons]
                rw [hd] at hsum
                rw [hl]
                linarith
            · have hstep : (s'.update d).exhaust_particles = [] := by
                simp [ParticleSystem.update, hexh, List.filter, Particle.is_alive, hlive]
              exact advanceAll_exhaust_empty _ _ hstep

/-- Witness for C1 amended at the concrete one-particle engine. -/
theorem advance_culls_then_integrates_witness :
    (∃ q ∈ testSystem.exhaust_particles, 0 < q.life ∧
        testParticle.update (1/2) = q.update (1/2) ∧
        -(1/2 : ℚ) < (testParticle.update (1/2)).life ∧
        (testParticle.update (1/2)).life < q.life) ∧
    (ParticleSystem.advanceAll [1, 1] testSystem).exhaust_particles = [] := by
  have h := advance_culls_then_integrates testSystem (1/2) (by norm_num)
  constructor
  · apply h.1
    have hstep : (testSystem.update (1/2)).exhaust_particles
        = [testParticle.update (1/2)] := by
      simp [ParticleSystem.update, testSystem, List.filter, Particle.is_alive,
        testParticle]
    rw [hstep]
    exact List.mem_singleton.mpr rfl
  · refine h.2.2 testParticle [1, 1] testSystem (by simp) ?_ ?_ rfl
    · intro d hd
      rcases List.mem_cons.mp hd with rfl | hd2
      · norm_num
      · rcases List.mem_cons.mp hd2 with rfl | hd3
        · norm_num
        · cases hd3
    · show testParticle.life ≤ ([1, 1] : List ℚ).dropLast.sum
      norm_num [testParticle]

/-- Claim C6: with the engine enabled, one exhaust emission appends exactly
`floor(2 * m)` particles, `m` the Euclidean magnitude of the acceleration
vector. -/
theorem exhaust_count_floor_of_magnitude (rx ry ax ay az pitch : ℝ)
    (randF : ℕ → ℝ) (randI : ℕ → ℤ) (s : ParticleSystem ℝ)
    (h : s.enabled = true) :
    (create_exhaust_particles rx ry ax ay az pitch randF randI s).exhaust_particles.length
      = s.exhaust_particles.length
        + (⌊2 * Real.sqrt (ax ^ 2 + ay ^ 2 + az ^ 2)⌋).toNat := by
  have hen : ¬s.enabled = false := by simp [h]
  unfold create_exhaust_particles
  rw [if_neg hen]
  simp only [List.length_append, List.length_map, List.length_range]
  have hm : (0 : ℝ) ≤ Real.sqrt (ax ^ 2 + ay ^ 2 + az ^ 2) * 2 :=
    mul_nonneg (Real.sqrt_nonneg _) (by norm_num)
  rw [pyTrunc, if_pos hm, mul_comm (Real.sqrt (ax ^ 2 + ay ^ 2 + az ^ 2)) 2]

/-- Witness for C6: magnitude 3 spawns 6 particles from the empty engine. -/
theorem exhaust_count_floor_of_magnitude_witness :
    (create_exhaust_particles 0 0 3 0 0 0 (fun _ => 0) (fun _ => 0)
        emptySystemR).exhaust_particles.length = 6 := by
  have h := exhaust_count_floor_of_magnitude 0 0 3 0 0 0 (fun _ => 0) (fun _ => 0)
    emptySystemR rfl
  rw [h]
  have hsq : Real.sqrt ((3 : ℝ) ^ 2 + 0 ^ 2 + 0 ^ 2) = 3 := by
    rw [show (3 : ℝ) ^ 2 + 0 ^ 2 + 0 ^ 2 = 3 ^ 2 by norm_num,
      Real.sqrt_sq (by norm_num : (0 : ℝ) ≤ 3)]
  rw [hsq]
  norm_num [emptySystemR]
  decide

/-- Claim C7: the branch of the dust edge test guarantees the chosen
denominator is nonzero: the X component is only chosen when strictly larger
in absolute value than the Y component, and a zero component diverts the
branch to the other axis, whose component is then nonzero. -/
theorem dust_edge_denominator_nonzero (pitch : ℝ) :
    dustEdgeDenominator (noseDx pitch) (noseDy pitch) ≠ 0 ∧
    (noseDx pitch = 0 →
      dustEdgeDenominator (noseDx pitch) (noseDy pitch) = noseDy pitch) ∧
    (noseDy pitch = 0 →
      dustEdgeDenominator (noseDx pitch) (noseDy pitch) = noseDx pitch) := by
  have hpyth : noseDx pitch ^ 2 + noseDy pitch ^ 2 = 1 :=
    Real.sin_sq_add_cos_sq (radians pitch)
  refine ⟨?_, ?_, ?_⟩
  · unfold dustEdgeDenominator
    split
    · next hgt =>
        intro hdx
        rw [hdx] at hgt
        simp only [abs_zero] at hgt
        exact absurd hgt (not_lt.mpr (abs_nonneg _))
    · next hle =>
        intro hdy
        rw [hdy] at hle hpyth
        simp only [abs_zero, not_lt] at hle
        have hdx : noseDx pitch = 0 := abs_eq_zero.mp (le_antisymm hle (abs_nonneg _))
        rw [hdx] at hpyth
        norm_num at hpyth
  · intro hdx
    unfold dustEdgeDenominator
    rw [if_neg]
    rw [hdx]
    simp only [abs_zero, not_lt]
    exact abs_nonneg _
  · intro hdy
    unfold dustEdgeDenominator
    rw [if_pos]
    rw [hdy]
    simp only [abs_zero]
    have hdx : noseDx pitch ≠ 0 := by
      intro h0
      rw [h0, hdy] at hpyth
      norm_num at hpyth
    exact abs_pos.mpr hdx

/-- Witness for C7 at pitch 0, where the X component is exactly zero and the
test falls back to the Y axis. -/
theorem dust_edge_denominator_nonzero_witness :
    dustEdgeDenominator (noseDx 0) (noseDy 0) = noseDy 0 ∧
    dustEdgeDenominator (noseDx 0) (noseDy 0) ≠ 0 :=
  ⟨(dust_edge_denominator_nonzero 0).2.1 (by simp [noseDx, radians]),
   (dust_edge_denominator_nonzero 0).1⟩

/-- Every generator state reached from `g` has strictly larger altitude. -/
theorem runGenerator_altitude_lt (es : List ℝ) (g : TestLogGenerator) :
    ∀ x ∈ runGenerator g es, g.altitude < x.altitude := by
  induction es generalizing g with
  | nil => intro x hx; cases hx
  | cons e es ih =>
      intro x hx
      rcases List.mem_cons.mp hx with rfl | hx2
      · show g.altitude < g.altitude + 10
        linarith
      · have h1 : (generateStep e g).altitude = g.altitude + 10 := rfl
        have := ih (generateStep e g) x hx2
        rw [h1] at this
        linarith

/-- Claim C8: over any sequence of polls the synthetic generator's altitudes
are strictly increasing and every generated pitch lies in `[-15, 15]`. -/
theorem generator_ascending_bounded_pitch (es : List ℝ) :
    ((runGenerator initGenerator es).map TestLogGenerator.altitude).Pairwise (· < ·) ∧
    (∀ g ∈ runGenerator initGenerator es, -15 ≤ g.pitch ∧ g.pitch ≤ 15) := by
  constructor
  · have hgen : ∀ (es : List ℝ) (g : TestLogGenerator),
        ((runGenerator g es).map TestLogGenerator.altitude).Pairwise (· < ·) := by
      intro es
      induction es with
      | nil => intro g; simp [runGenerator]
      | cons e es ih =>
          intro g
          rw [show runGenerator g (e :: es)
                = generateStep e g :: runGenerator (generateStep e g) es from rfl,
            List.map_cons]
          refine List.Pairwise.cons ?_ (ih (generateStep e g))
          intro b hb
          simp only [List.mem_map] at hb
          obtain ⟨x, hx, rfl⟩ := hb
          exact runGenerator_altitude_lt es (generateStep e g) x hx
    exact hgen es initGenerator
  · have hgen : ∀ (es : List ℝ) (g : TestLogGenerator),
        ∀ x ∈ runGenerator g es, -15 ≤ x.pitch ∧ x.pitch ≤ 15 := by
      intro es
      induction es with
      | nil => intro g x hx; cases hx
      | cons e es ih =>
          intro g x hx
          rcases List.mem_cons.mp hx with rfl | hx2
          · constructor
            · show -15 ≤ Real.sin (e * 0.5) * 15
              nlinarith [Real.neg_one_le_sin (e * 0.5), Real.sin_le_one (e * 0.5)]
            · show Real.sin (e * 0.5) * 15 ≤ 15
              nlinarith [Real.neg_one_le_sin (e * 0.5), Real.sin_le_one (e * 0.5)]
          · exact ih (generateStep e g) x hx2
    exact hgen es initGenerator

/-- Witness for C8 at a single poll at elapsed time 1. -/
theorem generator_ascending_bounded_pitch_witness :
    -15 ≤ (generateStep 1 initGenerator).pitch ∧
    (generateStep 1 initGenerator).pitch ≤ 15 :=
  (generator_ascending_bounded_pitch [1]).2 (generateStep 1 initGenerator)
    (by rw [show runGenerator initGenerator [1] = [generateStep 1 initGenerator] from rfl]
        exact List.mem_singleton.mpr rfl)

/-- Characterisation of a successful field conversion: every float column
1-16 and the integer column 17 converted, and at least 18 tokens exist. -/
theorem parseFields_eq_some_components {parts : List String} {d : LogData}
    (h : parseFields parts = some d) :
    (∀ i : ℕ, 1 ≤ i → i ≤ 16 → ((parts[i]?).bind pyFloat).isSome) ∧
    ((parts[17]?).bind pyInt).isSome ∧ 18 ≤ parts.length := by
  unfold parseFields at h
  split at h
  · next ts alt pres temp gpsAlt lat lon gx gy gz ax ay az pit yaw roll bat st
      h0 h1 h2 h3 h4 h5 h6 h7 h8 h9 h10 h11 h12 h13 h14 h15 h16 h17 =>
    refine ⟨?_, by rw [h17]; rfl, ?_⟩
    · intro i hi1 hi16
      interval_cases i
      · rw [h1]; rfl
      · rw [h2]; rfl
      · rw [h3]; rfl
      · rw [h4]; rfl
      · rw [h5]; rfl
      · rw [h6]; rfl
      · rw [h7]; rfl
      · rw [h8]; rfl
      · rw [h9]; rfl
      · rw [h10]; rfl
      · rw [h11]; rfl
      · rw [h12]; rfl
      · rw [h13]; rfl
      · rw [h14]; rfl
      · rw [h15]; rfl
      · rw [h16]; rfl
    · rcases Option.bind_eq_some.mp h17 with ⟨t, ht, _⟩
      obtain ⟨hlt, _⟩ := List.getElem?_eq_some_iff.mp ht
      omega
  · exact Option.noConfusion h

/-- An 18-token line whose altitude column is not numeric. -/
def badLine : String := "t abc 0 0 0 0 0 0 0 0 0 0 0 0 0 0 0 1"

/-- The spec's example of a well-formed 18-token line. -/
def exLine : String :=
  "12:00:00.000 100.0 1001.0 14.35 0 0 0 0 0 0 0.1 0.1 15.0 5.0 0 0 4.1 1"

/-- Claim C3: a malformed line (fewer than 18 tokens, or a failed numeric
conversion in columns 2-18) parses to the `none` sentinel without raising,
and a poll hitting such a line, or an I/O failure, returns the previously
held sample unchanged. -/
theorem malformed_line_returns_sentinel (line : String) (current : LogData) :
    ((pySplit line).length < 18 → parse_log_line line = none) ∧
    (∀ i : ℕ, 1 ≤ i → i ≤ 16 → pyFloat ((pySplit line).getD i "") = none →
        parse_log_line line = none) ∧
    (pyInt ((pySplit line).getD 17 "") = none → parse_log_line line = none) ∧
    (parse_log_line line = none → read_latest_data (some line) current = current) ∧
    read_latest_data none current = current := by
  refine ⟨?_, ?_, ?_, ?_, rfl⟩
  · intro hlen
    show (if (pySplit line).length < 18 then none else parseFields (pySplit line)) = none
    rw [if_pos hlen]
  · intro i h1 h16 hfail
    show (if (pySplit line).length < 18 then none else parseFields (pySplit line)) = none
    split
    · rfl
    · next hlen =>
        cases hp : parseFields (pySplit line) with
        | none => rfl
        | some d =>
            exfalso
            obtain ⟨hfl, _, _⟩ := parseFields_eq_some_components hp
            have hi := hfl i h1 h16
            have hlt : i < (pySplit line).length := by omega
            rw [List.getElem?_eq_getElem hlt] at hi
            rw [List.getD_eq_getElem?_getD, List.getElem?_eq_getElem hlt] at hfail
            simp only [Option.getD_some] at hfail
            simp only [Option.some_bind] at hi
            rw [hfail] at hi
            simp at hi
  · intro hfail
    show (if (pySplit line).length < 18 then none else parseFields (pySplit line)) = none
    split
    · rfl
    · next hlen =>
        cases hp : parseFields (pySplit line) with
        | none => rfl
        | some d =>
            exfalso
            obtain ⟨_, hint, _⟩ := parseFields_eq_some_components hp
            have hlt : (17 : ℕ) < (pySplit line).length := by omega
            rw [List.getElem?_eq_getElem hlt] at hint
            rw [List.getD_eq_getElem?_getD, List.getElem?_eq_getElem hlt] at hfail
            simp only [Option.getD_some] at hfail
            simp only [Option.some_bind] at hint
            rw [hfail] at hint
            simp at hint
  · intro hnone
    show (match parse_log_line line with | some d => d | none => current) = current
    rw [hnone]

/-- Witness for C3 on a concrete 18-token line with a non-numeric altitude. -/
theorem malformed_line_returns_sentinel_witness :
    parse_log_line badLine = none ∧
    read_latest_data (some badLine) initLogData = initLogData := by
  have h := malformed_line_returns_sentinel badLine initLogData
  have hbad : parse_log_line badLine = none :=
    h.2.1 1 (by norm_num) (by norm_num) (by decide)
  exact ⟨hbad, h.2.2.2.1 hbad⟩

/-- Claim C4: a line splitting into at least 18 tokens whose columns 2-17
convert as floats and column 18 as an integer parses successfully into the
documented fixed column order, and tokens beyond the 18th have no effect. -/
theorem wellformed_line_roundtrips (line : String) {ts : String}
    {t1 t2 t3 t4 t5 t6 t7 t8 t9 t10 t11 t12 t13 t14 t15 t16 t17 : String}
    {v1 v2 v3 v4 v5 v6 v7 v8 v9 v10 v11 v12 v13 v14 v15 v16 : ℚ} {st : ℤ}
    (h0 : (pySplit line)[0]? = some ts)
    (ht1 : (pySplit line)[1]? = some t1) (hv1 : pyFloat t1 = some v1)
    (ht2 : (pySplit line)[2]? = some t2) (hv2 : pyFloat t2 = some v2)
    (ht3 : (pySplit line)[3]? = some t3) (hv3 : pyFloat t3 = some v3)
    (ht4 : (pySplit line)[4]? = some t4) (hv4 : pyFloat t4 = some v4)
    (ht5 : (pySplit line)[5]? = some t5) (hv5 : pyFloat t5 = some v5)
    (ht6 : (pySplit line)[6]? = some t6) (hv6 : pyFloat t6 = some v6)
    (ht7 : (pySplit line)[7]? = some t7) (hv7 : pyFloat t7 = some v7)
    (ht8 : (pySplit line)[8]? = some t8) (hv8 : pyFloat t8 = some v8)
    (ht9 : (pySplit line)[9]? = some t9) (hv9 : pyFloat t9 = some v9)
    (ht10 : (pySplit line)[10]? = some t10) (hv10 : pyFloat t10 = some v10)
    (ht11 : (pySplit line)[11]? = some t11) (hv11 : pyFloat t11 = some v11)
    (ht12 : (pySplit line)[12]? = some t12) (hv12 : pyFloat t12 = some v12)
    (ht13 : (pySplit line)[13]? = some t13) (hv13 : pyFloat t13 = some v13)
    (ht14 : (pySplit line)[14]? = some t14) (hv14 : pyFloat t14 = some v14)
    (ht15 : (pySplit line)[15]? = some t15) (hv15 : pyFloat t15 = some v15)
    (ht16 : (pySplit line)[16]? = some t16) (hv16 : pyFloat t16 = some v16)
    (ht17 : (pySplit line)[17]? = some t17) (hst : pyInt t17 = some st) :
    parse_log_line line = some
      { timestamp := ts, altitude := v1, pressure := v2, temperature := v3,
        gps_altitude := v4, latitude := v5, longitude := v6, gyro_x := v7,
        gyro_y := v8, gyro_z := v9, acceleration_x := v10,
        acceleration_y := v11, acceleration_z := v12, pitch := v13,
        yaw := v14, roll := v15, battery := v16, state := st } ∧
    (∀ parts extra : List String, parts.length = 18 →
        parseFields (parts ++ extra) = parseFields parts) := by
  constructor
  · have hlen : 18 ≤ (pySplit line).length := by
      obtain ⟨hlt, _⟩ := List.getElem?_eq_some_iff.mp ht17
      omega
    show (if (pySplit line).length < 18 then none else parseFields (pySplit line)) = some _
    rw [if_neg (by omega)]
    unfold parseFields
    rw [h0, ht1, ht2, ht3, ht4, ht5, ht6, ht7, ht8, ht9, ht10, ht11, ht12, ht13, ht14, ht15, ht16, ht17]
    simp only [Option.some_bind]
    rw [hv1, hv2, hv3, hv4, hv5, hv6, hv7, hv8, hv9, hv10, hv11, hv12, hv13, hv14, hv15, hv16, hst]
  · intro parts extra hlen18
    have he : ∀ j : ℕ, j < 18 → (parts ++ extra)[j]? = parts[j]? := fun j hj =>
      List.getElem?_append_left (by omega)
    unfold parseFields
    rw [he 0 (by omega), he 1 (by omega), he 2 (by omega), he 3 (by omega), he 4 (by omega), he 5 (by omega), he 6 (by omega), he 7 (by omega), he 8 (by omega), he 9 (by omega), he 10 (by omega), he 11 (by omega), he 12 (by omega), he 13 (by omega), he 14 (by omega), he 15 (by omega), he 16 (by omega), he 17 (by omega)]

/-- Evaluation of `pyFloat` on the token `100.0` of the example line. -/
theorem pyFloat_ex_100 : pyFloat "100.0" = some (100) := by
  rw [show pyFloat "100.0" = some ((natOfDigits ['1','0','0'] : ℚ)
      + (natOfDigits ['0'] : ℚ) / 10 ^ 1) from rfl,
    (by decide : natOfDigits ['1','0','0'] = 100),
    (by decide : natOfDigits ['0'] = 0)]
  norm_num

/-- Evaluation of `pyFloat` on the token `1001.0` of the example line. -/
theorem pyFloat_ex_1001 : pyFloat "1001.0" = some (1001) := by
  rw [show pyFloat "1001.0" = some ((natOfDigits ['1','0','0','1'] : ℚ)
      + (natOfDigits ['0'] : ℚ) / 10 ^ 1) from rfl,
    (by decide : natOfDigits ['1','0','0','1'] = 1001),
    (by decide : natOfDigits ['0'] = 0)]
  norm_num

/-- Evaluation of `pyFloat` on the token `14.35` of the example line. -/
theorem pyFloat_ex_1435 : pyFloat "14.35" = some (287/20) := by
  rw [show pyFloat "14.35" = some ((natOfDigits ['1','4'] : ℚ)
      + (natOfDigits ['3','5'] : ℚ) / 10 ^ 2) from rfl,
    (by decide : natOfDigits ['1','4'] = 14),
    (by decide : natOfDigits ['3','5'] = 35)]
  norm_num

/-- Evaluation of `pyFloat` on the token `0` of the example line. -/
theorem pyFloat_ex_zero : pyFloat "0" = some (0) := by
  rw [show pyFloat "0" = some ((natOfDigits ['0'] : ℚ)) from rfl,
    (by decide : natOfDigits ['0'] = 0)]
  norm_num

/-- Evaluation of `pyFloat` on the token `0.1` of the example line. -/
theorem pyFloat_ex_01 : pyFloat "0.1" = some (1/10) := by
  rw [show pyFloat "0.1" = some ((natOfDigits ['0'] : ℚ)
      + (natOfDigits ['1'] : ℚ) / 10 ^ 1) from rfl,
    (by decide : natOfDigits ['0'] = 0),
    (by decide : natOfDigits ['1'] = 1)]
  norm_num

/-- Evaluation of `pyFloat` on the token `15.0` of the example line. -/
theorem pyFloat_ex_15 : pyFloat "15.0" = some (15) := by
  rw [show pyFloat "15.0" = some ((natOfDigits ['1','5'] : ℚ)
      + (natOfDigits ['0'] : ℚ) / 10 ^ 1) from rfl,
    (by decide : natOfDigits ['1','5'] = 15),
    (by decide : natOfDigits ['0'] = 0)]
  norm_num

/-- Evaluation of `pyFloat` on the token `5.0` of the example line. -/
theorem pyFloat_ex_5 : pyFloat "5.0" = some (5) := by
  rw [show pyFloat "5.0" = some ((natOfDigits ['5'] : ℚ)
      + (natOfDigits ['0'] : ℚ) / 10 ^ 1) from rfl,
    (by decide : natOfDigits ['5'] = 5),
    (by decide : natOfDigits ['0'] = 0)]
  norm_num

/-- Evaluation of `pyFloat` on the token `4.1` of the example line. -/
theorem pyFloat_ex_41 : pyFloat "4.1" = some (41/10) := by
  rw [show pyFloat "4.1" = some ((natOfDigits ['4'] : ℚ)
      + (natOfDigits ['1'] : ℚ) / 10 ^ 1) from rfl,
    (by decide : natOfDigits ['4'] = 4),
    (by decide : natOfDigits ['1'] = 1)]
  norm_num

/-- Evaluation of `pyInt` on the state token of the example line. -/
theorem pyInt_ex_one : pyInt "1" = some 1 := by
  rw [show pyInt "1" = some ((natOfDigits ['1'] : ℕ) : ℤ) from rfl,
    (by decide : natOfDigits ['1'] = 1)]
  norm_num

/-- Witness for C4 on the spec's example line. -/
theorem wellformed_line_roundtrips_witness :
    parse_log_line exLine = some
      { timestamp := "12:00:00.000", altitude := 100, pressure := 1001,
        temperature := 287/20, gps_altitude := 0, latitude := 0,
        longitude := 0, gyro_x := 0, gyro_y := 0, gyro_z := 0,
        acceleration_x := 1/10, acceleration_y := 1/10,
        acceleration_z := 15, pitch := 5, yaw := 0, roll := 0,
        battery := 41/10, state := 1 } := by
  have e0 : (pySplit exLine)[0]? = some "12:00:00.000" := by decide
  have e1 : (pySplit exLine)[1]? = some "100.0" := by decide
  have e2 : (pySplit exLine)[2]? = some "1001.0" := by decide
  have e3 : (pySplit exLine)[3]? = some "14.35" := by decide
  have e4 : (pySplit exLine)[4]? = some "0" := by decide
  have e5 : (pySplit exLine)[5]? = some "0" := by decide
  have e6 : (pySplit exLine)[6]? = some "0" := by decide
  have e7 : (pySplit exLine)[7]? = some "0" := by decide
  have e8 : (pySplit exLine)[8]? = some "0" := by decide
  have e9 : (pySplit exLine)[9]? = some "0" := by decide
  have e10 : (pySplit exLine)[10]? = some "0.1" := by decide
  have e11 : (pySplit exLine)[11]? = some "0.1" := by decide
  have e12 : (pySplit exLine)[12]? = some "15.0" := by decide
  have e13 : (pySplit exLine)[13]? = some "5.0" := by decide
  have e14 : (pySplit exLine)[14]? = some "0" := by decide
  have e15 : (pySplit exLine)[15]? = some "0" := by decide
  have e16 : (pySplit exLine)[16]? = some "4.1" := by decide
  have e17 : (pySplit exLine)[17]? = some "1" := by decide
  exact (wellformed_line_roundtrips exLine e0 e1 pyFloat_ex_100 e2 pyFloat_ex_1001 e3 pyFloat_ex_1435 e4 pyFloat_ex_zero e5 pyFloat_ex_zero e6 pyFloat_ex_zero e7 pyFloat_ex_zero e8 pyFloat_ex_zero e9 pyFloat_ex_zero e10 pyFloat_ex_01 e11 pyFloat_ex_01 e12 pyFloat_ex_15 e13 pyFloat_ex_5 e14 pyFloat_ex_zero e15 pyFloat_ex_zero e16 pyFloat_ex_41 e17 pyInt_ex_one).1

/-- A run of failing polls (absent file, I/O failure, or unparseable newest
line) never changes the held sample. -/
theorem pollAll_failures_keep (polls : List (Option String)) :
    ∀ cur : LogData,
      (∀ io ∈ polls, io = none ∨ ∃ l, io = some l ∧ parse_log_line l = none) →
      pollAll polls cur = cur := by
  induction polls with
  | nil => intro cur _; rfl
  | cons io rest ih =>
      intro cur h
      have hstep : read_latest_data io cur = cur := by
        rcases h io (List.mem_cons_self io rest) with rfl | ⟨l, rfl, hparse⟩
        · rfl
        · show (match parse_log_line l with | some d => d | none => cur) = cur
          rw [hparse]
      rw [show pollAll (io :: rest) cur = pollAll rest (read_latest_data io cur) from rfl,
        hstep]
      exact ih cur (fun io2 h2 => h io2 (List.mem_cons_of_mem io h2))

/-- Claim C10: before any successful parse, a file-backed reader's polls all
return the default zero-valued sample: empty timestamp, state 0, and every
numeric field 0. -/
theorem polls_before_first_parse_default (polls : List (Option String))
    (h : ∀ io ∈ polls, io = none ∨ ∃ l, io = some l ∧ parse_log_line l = none) :
    pollAll polls initLogData = initLogData ∧
    initLogData.timestamp = "" ∧ initLogData.state = 0 ∧
    initLogData.altitude = 0 ∧ initLogData.pressure = 0 ∧
    initLogData.temperature = 0 ∧ initLogData.gps_altitude = 0 ∧
    initLogData.latitude = 0 ∧ initLogData.longitude = 0 ∧
    initLogData.gyro_x = 0 ∧ initLogData.gyro_y = 0 ∧ initLogData.gyro_z = 0 ∧
    initLogData.acceleration_x = 0 ∧ initLogData.acceleration_y = 0 ∧
    initLogData.acceleration_z = 0 ∧ initLogData.pitch = 0 ∧
    initLogData.yaw = 0 ∧ initLogData.roll = 0 ∧ initLogData.battery = 0 :=
  ⟨pollAll_failures_keep polls initLogData h, rfl, rfl, rfl, rfl, rfl, rfl,
    rfl, rfl, rfl, rfl, rfl, rfl, rfl, rfl, rfl, rfl, rfl, rfl⟩

/-- Witness for C10: an absent-file poll followed by a malformed-line poll
still returns the default sample. -/
theorem polls_before_first_parse_default_witness :
    pollAll [none, some "bad"] initLogData = initLogData :=
  (polls_before_first_parse_default [none, some "bad"] (by
    intro io hio
    rcases List.mem_cons.mp hio with rfl | h2
    · exact Or.inl rfl
    · rcases List.mem_cons.mp h2 with rfl | h3
      · exact Or.inr ⟨"bad", rfl, by decide⟩
      · cases h3)).1
